import Mathlib

/-!
Verification of the core algorithms of cloudbridge/cloud/base.py:
the resource-state waiter (BaseObjectLifeCycleMixin.wait_for), the
cursor-based pagination iterator (BasePageableObjectMixin), and the
launch-configuration validator (BaseLaunchConfig).

Modelling conventions:
- Time is idealised: the clock starts at 0 and advances only by
  time.sleep(interval); time.time() returns the current clock value.
- A resource is its identity plus the sequence of states its refresh()
  calls produce: states k is the state observed after k refresh() calls
  (states 0 is the state at call time).
- The Python while-loop is embedded as a fuel-indexed recursion; a result
  of none means the fuel ran out before the loop ended.
- Both raise sites of wait_for throw WaitStateException; the two messages
  (terminal state reached / waited too long) are modelled as the distinct
  constructors terminalError and timeoutError, each carrying the formatted
  identity and state.  The three assert statements are modelled by the
  assertError result (timeout >= 0 and interval >= 0 hold for Nat).
-/

/-- Result of a wait_for call: success (the loop exited because the state
entered target_states), one of the two WaitStateException raise sites, or
an assert failure.  The exception constructors carry the resource identity
and the state interpolated into the exception message. -/
inductive WaitRes (ι S : Type) where
  | success
  | terminalError (ident : ι) (st : S)
  | timeoutError (ident : ι) (st : S)
  | assertError
  deriving DecidableEq

/-- Outcome of a wait_for run together with the observable effect counts:
how many times refresh() was invoked and how many times time.sleep ran. -/
structure WaitOutcome (ι S : Type) where
  result : WaitRes ι S
  refreshes : Nat
  sleeps : Nat
  deriving DecidableEq

/-- A stateful resource as the waiter sees it: an identity and the sequence
of states produced by successive refresh() calls; states 0 is the state at
call time, states k the state after the k-th refresh(). -/
structure Resource (ι S : Type) where
  ident : ι
  states : Nat → S

/-- One-to-one embedding of the while-loop of
BaseObjectLifeCycleMixin.wait_for (base.py lines 139-160).  now is the
current clock, k the number of refresh() calls made so far, sleeps the
number of sleeps so far.  Per iteration: if state is in target_states,
return success; else if state is in the terminal list, raise (terminal);
else sleep interval and, if the clock passed end_time, raise (timeout,
carrying the state observed before this iteration's refresh); otherwise
refresh and loop. -/
def waitForAux {ι S : Type} [DecidableEq S] (r : Resource ι S)
    (target_states terminal : List S) (end_time interval : Nat) :
    Nat → Nat → Nat → Nat → Option (WaitOutcome ι S)
  | 0, _, _, _ => none
  | fuel + 1, now, k, sleeps =>
    if r.states k ∈ target_states then
      some ⟨.success, k, sleeps⟩
    else if r.states k ∈ terminal then
      some ⟨.terminalError r.ident (r.states k), k, sleeps⟩
    else
      if end_time < now + interval then
        some ⟨.timeoutError r.ident (r.states k), k, sleeps + 1⟩
      else
        waitForAux r target_states terminal end_time interval
          fuel (now + interval) (k + 1) (sleeps + 1)

/-- BaseObjectLifeCycleMixin.wait_for (base.py lines 131-160).  The Python
default terminal_states=None and the expression (terminal_states or [])
are modelled by an Option whose none case yields the empty list.  The
asserts timeout >= 0 and interval >= 0 hold trivially over Nat; the assert
timeout >= interval is the guard.  end_time = time.time() + timeout with
the clock starting at 0. -/
def wait_for {ι S : Type} [DecidableEq S] (r : Resource ι S)
    (target_states : List S) (terminal_states : Option (List S))
    (timeout interval fuel : Nat) : Option (WaitOutcome ι S) :=
  if interval ≤ timeout then
    waitForAux r target_states (terminal_states.getD []) timeout interval fuel 0 0 0
  else
    some ⟨.assertError, 0, 0⟩

/-- Modelled from the spec: the InstanceState constants (RUNNING, PENDING,
TERMINATED, ERROR, ...) live in cloudbridge/cloud/interfaces/resources.py,
which is not among the staged sources.  They are opaque tokens compared by
equality, so an enumeration is a faithful model. -/
inductive InstanceState where
  | pending
  | running
  | terminated
  | error
  | stopped
  deriving DecidableEq

/-- BaseInstance.wait_till_ready (base.py lines 244-249): wait_for with
target [RUNNING] and terminal states [TERMINATED, ERROR]. -/
def wait_till_ready {ι : Type} (r : Resource ι InstanceState)
    (timeout interval fuel : Nat) : Option (WaitOutcome ι InstanceState) :=
  wait_for r [InstanceState.running]
    (some [InstanceState.terminated, InstanceState.error]) timeout interval fuel

/-- The resource of the C4 scenario: refresh() yields PENDING, PENDING,
RUNNING (index 0 is the state at call time). -/
def c4Resource : Resource Nat InstanceState :=
  ⟨42, fun k => [InstanceState.pending, InstanceState.pending,
                 InstanceState.running].getD k InstanceState.running⟩

/-- Claim C3: a resource whose state at call time is already in
target_states makes wait_for return success immediately, with zero
refresh() calls and zero sleeps. -/
theorem claim_C3_immediate_success {ι S : Type} [DecidableEq S]
    (r : Resource ι S) (target_states : List S)
    (terminal_states : Option (List S)) (timeout interval fuel : Nat)
    (hTI : interval ≤ timeout) (h0 : r.states 0 ∈ target_states)
    (hfuel : 1 ≤ fuel) :
    wait_for r target_states terminal_states timeout interval fuel =
      some ⟨.success, 0, 0⟩ := by
  obtain ⟨f, rfl⟩ : ∃ f, fuel = f + 1 := ⟨fuel - 1, by omega⟩
  simp [wait_for, waitForAux, hTI, h0]

/-- Witness for C3 at a concrete input. -/
theorem claim_C3_witness :
    wait_for (⟨7, fun _ => (0 : Nat)⟩ : Resource Nat Nat) [0] none 10 2 1 =
      some ⟨.success, 0, 0⟩ :=
  claim_C3_immediate_success _ _ _ _ _ _ (by decide) (by decide) (by decide)

/-- Claim C4: on a resource whose refresh() calls yield the state sequence
[PENDING, PENDING, RUNNING], wait_for with target {RUNNING}, terminal
{ERROR, TERMINATED}, timeout 10 s and interval 2 s returns success after
exactly 2 refresh() calls (and 2 sleeps). -/
theorem claim_C4_scenario :
    wait_for c4Resource [InstanceState.running]
        (some [InstanceState.error, InstanceState.terminated]) 10 2 3 =
      some ⟨.success, 2, 2⟩ := by
  decide

/-- If every state the resource produces avoids both target_states and the
terminal list, the loop runs until the clock passes end_time: starting from
clock value now, it raises the timeout after exactly n further iterations,
where n is determined by now + n * interval <= end_time < now + (n+1) *
interval, having refreshed n more times and slept n + 1 more times, and the
exception carries the state observed before the (never reached) refresh of
the final iteration. -/
theorem waitForAux_timeout {ι S : Type} [DecidableEq S] (r : Resource ι S)
    (target_states terminal : List S) (end_time interval : Nat)
    (htgt : ∀ m, r.states m ∉ target_states)
    (hterm : ∀ m, r.states m ∉ terminal) :
    ∀ n fuel now k sleeps,
      now + n * interval ≤ end_time →
      end_time < now + (n + 1) * interval →
      n + 1 ≤ fuel →
      waitForAux r target_states terminal end_time interval fuel now k sleeps =
        some ⟨.timeoutError r.ident (r.states (k + n)), k + n, sleeps + n + 1⟩ := by
  intro n
  induction n with
  | zero =>
    intro fuel now k sleeps h1 h2 hf
    obtain ⟨f, rfl⟩ : ∃ f, fuel = f + 1 := ⟨fuel - 1, by omega⟩
    rw [Nat.one_mul] at h2
    simp [waitForAux, htgt k, hterm k, h2]
  | succ n ih =>
    intro fuel now k sleeps h1 h2 hf
    obtain ⟨f, rfl⟩ : ∃ f, fuel = f + 1 := ⟨fuel - 1, by omega⟩
    rw [Nat.succ_mul] at h1
    rw [Nat.succ_mul, Nat.succ_mul] at h2
    have hstep : ¬ end_time < now + interval := by
      have := Nat.zero_le (n * interval)
      omega
    rw [waitForAux, if_neg (htgt k), if_neg (hterm k), if_neg hstep]
    have := ih f (now + interval) (k + 1) (sleeps + 1)
      (by omega) (by rw [Nat.succ_mul]; omega) (by omega)
    rw [this]
    have hk : k + 1 + n = k + (n + 1) := by omega
    have hs : sleeps + 1 + n + 1 = sleeps + (n + 1) + 1 := by omega
    rw [hk, hs]

/-- Claim C1 (amended to require a positive interval): if no observed state
is ever in target_states or terminal_states, wait_for raises the timeout
exception after exactly timeout / interval (floor) refresh() calls, and the
exception carries the resource identity and the last observed state, the
one in place before the refresh that never happened. -/
theorem claim_C1_timeout_behaviour {ι S : Type} [DecidableEq S]
    (r : Resource ι S) (target_states : List S)
    (terminal_states : Option (List S)) (timeout interval fuel : Nat)
    (hI : 0 < interval) (hTI : interval ≤ timeout)
    (htgt : ∀ m, r.states m ∉ target_states)
    (hterm : ∀ m, r.states m ∉ terminal_states.getD [])
    (hfuel : timeout / interval + 1 ≤ fuel) :
    wait_for r target_states terminal_states timeout interval fuel =
      some ⟨.timeoutError r.ident (r.states (timeout / interval)),
            timeout / interval, timeout / interval + 1⟩ := by
  have hdm := Nat.div_add_mod timeout interval
  have hml := Nat.mod_lt timeout hI
  have h1 : 0 + (timeout / interval) * interval ≤ timeout := by
    rw [Nat.mul_comm]
    omega
  have h2 : timeout < 0 + (timeout / interval + 1) * interval := by
    rw [Nat.add_mul, Nat.one_mul, Nat.mul_comm]
    omega
  rw [wait_for, if_pos hTI]
  have := waitForAux_timeout r target_states (terminal_states.getD [])
    timeout interval htgt hterm (timeout / interval) fuel 0 0 0 h1 h2 hfuel
  simpa using this

/-- Witness for C1 at a concrete input: constant state 0, target [1], no
terminal states, timeout 10, interval 3; the call times out after
10 / 3 = 3 refreshes carrying state 0. -/
theorem claim_C1_witness :
    wait_for (⟨7, fun _ => (0 : Nat)⟩ : Resource Nat Nat) [1] none 10 3 4 =
      some ⟨.timeoutError 7 0, 3, 4⟩ :=
  claim_C1_timeout_behaviour ⟨7, fun _ => 0⟩ [1] none 10 3 4
    (by decide) (by decide) (fun m => by simp) (fun m => by simp) (by decide)

/-- The resource used to refute C1 as stated at interval = 0. -/
def constZeroResource : Resource Nat Nat := ⟨7, fun _ => 0⟩

/-- With interval = 0 the clock never advances, so the loop of wait_for
never raises and never returns: no fuel suffices. -/
theorem waitForAux_interval_zero_diverges :
    ∀ fuel now k sleeps, now ≤ 5 →
      waitForAux constZeroResource [1] [] 5 0 fuel now k sleeps = none := by
  intro fuel
  induction fuel with
  | zero => intro now k sleeps h; rfl
  | succ f ih =>
    intro now k sleeps h
    rw [waitForAux]
    have h1 : constZeroResource.states k ∉ [1] := by
      simp [constZeroResource]
    have h2 : constZeroResource.states k ∉ ([] : List Nat) := by
      simp
    rw [if_neg h1, if_neg h2, if_neg (by omega)]
    exact ih (now + 0) (k + 1) (sleeps + 1) (by omega)

/-- Counterexample to C1 as stated: C1 quantifies over every
timeout >= interval >= 0, but at interval = 0 (timeout 5, target [1], no
terminal states, state constantly 0, so no target or terminal state is
ever observed) wait_for never fails with the timeout exception after
floor(5/0) refreshes: in the idealised time model the clock never moves
past the deadline, so the loop never terminates at all. -/
theorem claim_C1_counterexample :
    ¬ ∃ (fuel : Nat) (out : WaitOutcome Nat Nat),
        wait_for constZeroResource [1] none 5 0 fuel = some out := by
  rintro ⟨fuel, out, h⟩
  rw [wait_for, if_pos (by decide), Option.getD_none] at h
  rw [waitForAux_interval_zero_diverges fuel 0 0 0 (by decide)] at h
  cases h

/-- If the first n observed states avoid target_states and the terminal
list, the n-th observed state is in the terminal list but not in
target_states, and the clock survives the n sleeps before it, then the
loop raises the terminal-state exception at the n-th iteration, before
that iteration's sleep or refresh: n refreshes and n sleeps in total. -/
theorem waitForAux_terminal {ι S : Type} [DecidableEq S] (r : Resource ι S)
    (target_states terminal : List S) (end_time interval : Nat) :
    ∀ n fuel now k sleeps,
      now + n * interval ≤ end_time →
      (∀ m, m < n → r.states (k + m) ∉ target_states ∧
        r.states (k + m) ∉ terminal) →
      r.states (k + n) ∉ target_states →
      r.states (k + n) ∈ terminal →
      n + 1 ≤ fuel →
      waitForAux r target_states terminal end_time interval fuel now k sleeps =
        some ⟨.terminalError r.ident (r.states (k + n)), k + n, sleeps + n⟩ := by
  intro n
  induction n with
  | zero =>
    intro fuel now k sleeps h1 hpre htgt hterm hf
    obtain ⟨f, rfl⟩ : ∃ f, fuel = f + 1 := ⟨fuel - 1, by omega⟩
    rw [Nat.add_zero] at htgt hterm
    simp [waitForAux, htgt, hterm]
  | succ n ih =>
    intro fuel now k sleeps h1 hpre htgt hterm hf
    obtain ⟨f, rfl⟩ : ∃ f, fuel = f + 1 := ⟨fuel - 1, by omega⟩
    rw [Nat.succ_mul] at h1
    obtain ⟨hp1, hp2⟩ := hpre 0 (Nat.succ_pos n)
    rw [Nat.add_zero] at hp1 hp2
    have hstep : ¬ end_time < now + interval := by
      have := Nat.zero_le (n * interval)
      omega
    have hks : k + (n + 1) = k + 1 + n := by omega
    rw [hks] at htgt hterm
    have hpre2 : ∀ m, m < n → r.states (k + 1 + m) ∉ target_states ∧
        r.states (k + 1 + m) ∉ terminal := by
      intro m hm
      have h3 := hpre (m + 1) (by omega)
      have he : k + (m + 1) = k + 1 + m := by omega
      rw [he] at h3
      exact h3
    rw [waitForAux, if_neg hp1, if_neg hp2, if_neg hstep]
    rw [ih f (now + interval) (k + 1) (sleeps + 1) (by omega) hpre2 htgt hterm
      (by omega)]
    have hk : k + 1 + n = k + (n + 1) := by omega
    have hs : sleeps + 1 + n = sleeps + (n + 1) := by omega
    rw [hk, hs]

/-- Claim C2: whenever the observed state enters terminal_states without
being in target_states — at call time (n = 0) or right after the n-th
refresh — the very next poll cycle fails with the terminal-state
exception carrying the resource identity and that state, performing no
further sleep and no further refresh: exactly n refreshes and n sleeps
happen in total. -/
theorem claim_C2_terminal_detection {ι S : Type} [DecidableEq S]
    (r : Resource ι S) (target_states : List S)
    (terminal_states : Option (List S)) (timeout interval fuel n : Nat)
    (hTI : interval ≤ timeout) (hreach : n * interval ≤ timeout)
    (hpre : ∀ m, m < n → r.states m ∉ target_states ∧
      r.states m ∉ terminal_states.getD [])
    (htgt : r.states n ∉ target_states)
    (hterm : r.states n ∈ terminal_states.getD [])
    (hfuel : n + 1 ≤ fuel) :
    wait_for r target_states terminal_states timeout interval fuel =
      some ⟨.terminalError r.ident (r.states n), n, n⟩ := by
  rw [wait_for, if_pos hTI]
  have := waitForAux_terminal r target_states (terminal_states.getD [])
    timeout interval n fuel 0 0 0 (by omega)
    (fun m hm => by simpa using hpre m hm)
    (by simpa using htgt) (by simpa using hterm) hfuel
  simpa using this

/-- Witness for C2 at a concrete input: state 0 at call time, state 2
after the first refresh, target [1], terminal states [2]; the call fails
with the terminal-state exception carrying state 2 after exactly one
refresh and one sleep. -/
theorem claim_C2_witness :
    wait_for (⟨7, fun k => if k = 0 then 0 else 2⟩ : Resource Nat Nat)
        [1] (some [2]) 10 2 2 =
      some ⟨.terminalError 7 2, 1, 1⟩ :=
  claim_C2_terminal_detection ⟨7, fun k => if k = 0 then 0 else 2⟩
    [1] (some [2]) 10 2 2 1 (by decide) (by decide)
    (fun m hm => by
      have hm0 : m = 0 := by omega
      subst hm0
      simp)
    (by simp) (by simp) (by decide)

/-- With an empty terminal list the loop can only exit through the success
return or the timeout raise: no outcome is a terminal-state exception. -/
theorem waitForAux_empty_terminal_shape {ι S : Type} [DecidableEq S]
    (r : Resource ι S) (target_states : List S) (end_time interval : Nat) :
    ∀ fuel now k sleeps out,
      waitForAux r target_states [] end_time interval fuel now k sleeps =
        some out →
      out.result = .success ∨ ∃ i s, out.result = WaitRes.timeoutError i s := by
  intro fuel
  induction fuel with
  | zero => intro now k sleeps out h; cases h
  | succ f ih =>
    intro now k sleeps out h
    rw [waitForAux] at h
    by_cases h1 : r.states k ∈ target_states
    · rw [if_pos h1] at h
      cases h
      left
      rfl
    · rw [if_neg h1, if_neg (List.not_mem_nil _)] at h
      by_cases h2 : end_time < now + interval
      · rw [if_pos h2] at h
        cases h
        right
        exact ⟨_, _, rfl⟩
      · rw [if_neg h2] at h
        exact ih _ _ _ _ h

/-- Claim C10: calling wait_for with terminal_states omitted (None) is the
same call as with the empty set, and such a call never fails with the
terminal-state exception: it can only return success or raise the timeout
exception. -/
theorem claim_C10_none_terminal {ι S : Type} [DecidableEq S]
    (r : Resource ι S) (target_states : List S) (timeout interval fuel : Nat)
    (hTI : interval ≤ timeout) :
    wait_for r target_states none timeout interval fuel =
      wait_for r target_states (some []) timeout interval fuel ∧
    ∀ out, wait_for r target_states none timeout interval fuel = some out →
      out.result = .success ∨ ∃ i s, out.result = WaitRes.timeoutError i s := by
  constructor
  · rfl
  · intro out h
    rw [wait_for, if_pos hTI, Option.getD_none] at h
    exact waitForAux_empty_terminal_shape r target_states timeout interval
      fuel 0 0 0 out h

/-- Witness for C10 at a concrete input. -/
theorem claim_C10_witness :
    (wait_for (⟨7, fun _ => (0 : Nat)⟩ : Resource Nat Nat) [0] none 10 2 5 =
      wait_for (⟨7, fun _ => (0 : Nat)⟩ : Resource Nat Nat) [0] (some []) 10 2 5) ∧
    ∀ out,
      wait_for (⟨7, fun _ => (0 : Nat)⟩ : Resource Nat Nat) [0] none 10 2 5 =
        some out →
      out.result = .success ∨ ∃ i s, out.result = WaitRes.timeoutError i s :=
  claim_C10_none_terminal ⟨7, fun _ => 0⟩ [0] 10 2 5 (by decide)

/-- BaseResultList (base.py lines 163-187): one fetched page, holding the
pagination metadata and the page's items (the ResultList itself is a list
of the items, modelled as the data field). -/
structure BaseResultList (M A : Type) where
  is_truncated : Bool
  marker : Option M
  supports_total : Bool
  total : Option Nat
  data : List A
  deriving DecidableEq

/-- One-to-one embedding of BasePageableObjectMixin.__iter__ (base.py
lines 196-205) over a page-fetch capability list(marker): fetch the page
for the current marker, yield its items in order, then continue from the
page's marker while is_truncated holds.  The generator is embedded as a
fuel-indexed recursion collecting the yielded items; none means the fuel
ran out before a page with is_truncated = false arrived. -/
def pageIter {M A : Type} (list : Option M → BaseResultList M A) :
    Nat → Option M → Option (List A)
  | 0, _ => none
  | fuel + 1, marker =>
    let result_list := list marker
    if result_list.is_truncated then
      (pageIter list fuel result_list.marker).map
        (fun rest => result_list.data ++ rest)
    else
      some result_list.data

/-- The chain of pages P1..Pn the backend serves starting from a given
marker: each page is what list returns for the current marker, every page
but the last has is_truncated = true and links to its successor through
its marker, and the last page has is_truncated = false. -/
inductive FetchChain {M A : Type} (list : Option M → BaseResultList M A) :
    Option M → List (BaseResultList M A) → Prop
  | last (m : Option M) (p : BaseResultList M A) :
      list m = p → p.is_truncated = false → FetchChain list m [p]
  | cons (m : Option M) (p : BaseResultList M A)
      (rest : List (BaseResultList M A)) :
      list m = p → p.is_truncated = true → FetchChain list p.marker rest →
      FetchChain list m (p :: rest)

/-- Iterating a chain of n pages from its starting marker yields exactly
the concatenation of the pages' data in order, using n page fetches. -/
theorem pageIter_chain {M A : Type} (list : Option M → BaseResultList M A)
    (m : Option M) (ps : List (BaseResultList M A))
    (h : FetchChain list m ps) :
    pageIter list ps.length m = some (ps.map BaseResultList.data).flatten := by
  induction h with
  | last m p hfetch htrunc =>
    simp [pageIter, hfetch, htrunc]
  | cons m p rest hfetch htrunc _ ih =>
    simp [pageIter, hfetch, htrunc, ih]

/-- Claim C5: for pages P1..Pn with Pn.is_truncated = false and all earlier
pages truncated and marker-chained from the fresh marker None, the iterator
yields exactly the concatenation of P1.data .. Pn.data in order, and a
second fresh iteration over the same (stable) backend reproduces exactly
the same item sequence. -/
theorem claim_C5_pagination {M A : Type}
    (list : Option M → BaseResultList M A)
    (ps : List (BaseResultList M A)) (h : FetchChain list none ps) :
    pageIter list ps.length none = some (ps.map BaseResultList.data).flatten ∧
    pageIter list ps.length none = pageIter list ps.length none := by
  exact ⟨pageIter_chain list none ps h, rfl⟩

/-- The backend of the C5 scenario: three pages with markers a, b, nil,
truncation flags true, true, false, and two items each. -/
def c5Fetch : Option String → BaseResultList String Nat
  | none => ⟨true, some "a", false, none, [1, 2]⟩
  | some "a" => ⟨true, some "b", false, none, [3, 4]⟩
  | _ => ⟨false, none, false, none, [5, 6]⟩

/-- Witness for C5: the spec's three-page scenario yields exactly the six
items in page order. -/
theorem claim_C5_witness :
    pageIter c5Fetch 3 none = some [1, 2, 3, 4, 5, 6] ∧
    pageIter c5Fetch 3 none = pageIter c5Fetch 3 none := by
  have hchain : FetchChain c5Fetch none
      [⟨true, some "a", false, none, [1, 2]⟩,
       ⟨true, some "b", false, none, [3, 4]⟩,
       ⟨false, none, false, none, [5, 6]⟩] := by
    refine FetchChain.cons _ _ _ rfl rfl ?_
    refine FetchChain.cons _ _ _ rfl rfl ?_
    exact FetchChain.last _ _ rfl rfl
  have := claim_C5_pagination c5Fetch _ hchain
  simpa using this

/-- The sequence of pages the backend serves when walked from a given
marker: element 0 is the page for that marker, element k + 1 the page for
the marker of element k. -/
def pageSeqFrom {M A : Type} (list : Option M → BaseResultList M A)
    (m : Option M) : Nat → BaseResultList M A
  | 0 => list m
  | k + 1 => list (pageSeqFrom list m k).marker

/-- Walking the page sequence one step further is walking it from the
first page's marker. -/
theorem pageSeqFrom_shift {M A : Type} (list : Option M → BaseResultList M A)
    (m : Option M) :
    ∀ k, pageSeqFrom list m (k + 1) = pageSeqFrom list (list m).marker k := by
  intro k
  induction k with
  | zero => rfl
  | succ k ih => rw [pageSeqFrom, ih, pageSeqFrom]

/-- If the iterator finishes within some fuel, a page of the walked
sequence reports is_truncated = false. -/
theorem pageIter_some_untruncated {M A : Type}
    (list : Option M → BaseResultList M A) :
    ∀ fuel m out, pageIter list fuel m = some out →
      ∃ k, (pageSeqFrom list m k).is_truncated = false := by
  intro fuel
  induction fuel with
  | zero => intro m out h; cases h
  | succ f ih =>
    intro m out h
    rw [pageIter] at h
    by_cases ht : (list m).is_truncated
    · rw [if_pos ht] at h
      obtain ⟨rest, hrest, -⟩ := Option.map_eq_some'.mp h
      obtain ⟨k, hk⟩ := ih (list m).marker rest hrest
      refine ⟨k + 1, ?_⟩
      rw [pageSeqFrom_shift]
      exact hk
    · exact ⟨0, by simpa using ht⟩

/-- If the k-th page of the walked sequence reports is_truncated = false,
fuel k + 1 makes the iterator finish. -/
theorem pageIter_of_untruncated {M A : Type}
    (list : Option M → BaseResultList M A) :
    ∀ k m, (pageSeqFrom list m k).is_truncated = false →
      ∃ out, pageIter list (k + 1) m = some out := by
  intro k
  induction k with
  | zero =>
    intro m h
    rw [pageSeqFrom] at h
    exact ⟨(list m).data, by simp [pageIter, h]⟩
  | succ k ih =>
    intro m h
    rw [pageSeqFrom_shift] at h
    by_cases ht : (list m).is_truncated
    · obtain ⟨out, hout⟩ := ih (list m).marker h
      refine ⟨(list m).data ++ out, ?_⟩
      rw [pageIter, if_pos ht, hout]
      rfl
    · exact ⟨(list m).data, by simp [pageIter, ht]⟩

/-- Claim C6: starting from the fresh marker None, the iteration produces
a finite item sequence (it terminates within some fuel) exactly when the
backend's page walk eventually returns a page with is_truncated = false. -/
theorem claim_C6_termination {M A : Type}
    (list : Option M → BaseResultList M A) :
    (∃ fuel out, pageIter list fuel none = some out) ↔
      ∃ k, (pageSeqFrom list none k).is_truncated = false := by
  constructor
  · rintro ⟨fuel, out, h⟩
    exact pageIter_some_untruncated list fuel none out h
  · rintro ⟨k, hk⟩
    obtain ⟨out, hout⟩ := pageIter_of_untruncated list k none hk
    exact ⟨k + 1, out, hout⟩

/-- The kinds of object a volume-backed device's source can be.  The
Python isinstance check admits Snapshot, Volume and MachineImage; the
other constructor stands for any object of a different class.  The ids
are identity-only and never interpreted. -/
inductive VolumeSource where
  | snapshot (id : Nat)
  | volume (id : Nat)
  | machineImage (id : Nat)
  | other (id : Nat)
  deriving DecidableEq

/-- The isinstance(source, (Snapshot, Volume, MachineImage)) check of
base.py line 304. -/
def VolumeSource.isAllowed : VolumeSource → Bool
  | .other _ => false
  | _ => true

/-- BaseLaunchConfig.BlockDeviceMapping (base.py lines 263-274).  The
Python fields source, size and delete_on_terminate default to None,
modelled as Option none; is_root defaults to None and is only ever used
for its truthiness, so it is modelled as Bool with None as false. -/
structure BlockDeviceMapping where
  is_volume : Bool
  source : Option VolumeSource
  is_root : Bool
  size : Option Int
  delete_on_terminate : Option Bool
  deriving DecidableEq

/-- The state of a BaseLaunchConfig (base.py lines 256-261): the ordered
block-device list and the ordered network-id list, both created empty. -/
structure LaunchConfig where
  block_devices : List BlockDeviceMapping
  net_ids : List Nat
  deriving DecidableEq

/-- The InvalidConfigurationException raised by the validation paths,
carrying the message of the raise site that fired. -/
inductive InvalidConfigurationException where
  | invalidConfiguration (msg : String)
  deriving DecidableEq

/-- Python truthiness of the size argument: None and 0 are falsy, every
other integer truthy.  Both the not size of check (a) and the if size:
guard of check (c) in base.py use this. -/
def sizeTruthy : Option Int → Bool
  | none => false
  | some n => n != 0

/-- Python truthiness of the source argument: None is falsy, any object
truthy. -/
def sourceTruthy : Option VolumeSource → Bool
  | none => false
  | some _ => true

/-- The isinstance test of check (b) as applied to the optional source
argument (vacuously true when source is None, where the check is
short-circuited anyway). -/
def sourceAllowed : Option VolumeSource → Bool
  | none => true
  | some s => s.isAllowed

/-- The body of check (c): isinstance(size, six.integer_types) and
size > 0.  In this embedding size is always an integer when present, so
the isinstance conjunct holds by construction and the test reduces to
positivity (vacuously true when size is None, where check (c) is
short-circuited anyway). -/
def sizePositive : Option Int → Bool
  | none => true
  | some n => decide (0 < n)

/-- One-to-one embedding of BaseLaunchConfig._validate_volume_device
(base.py lines 293-321): the four raise sites in source order, then the
constructed volume-backed BlockDeviceMapping. -/
def validate_volume_device (cfg : LaunchConfig) (source : Option VolumeSource)
    (is_root : Bool) (size : Option Int) (delete_on_terminate : Option Bool) :
    Except InvalidConfigurationException BlockDeviceMapping :=
  if source = none ∧ sizeTruthy size = false then
    .error (.invalidConfiguration
      "A size must be specified for a blank new volume")
  else if sourceTruthy source = true ∧ sourceAllowed source = false then
    .error (.invalidConfiguration
      "Source must be a Snapshot, Volume, MachineImage or None")
  else if sizeTruthy size = true ∧ sizePositive size = false then
    .error (.invalidConfiguration
      "The size must be None or a number greater than 0")
  else if is_root = true ∧ cfg.block_devices.any (fun bd => bd.is_root) then
    .error (.invalidConfiguration
      "An existing block device: \x7b0\x7d has already been marked as root. There can only be one root device.")
  else
    .ok ⟨true, source, is_root, size, delete_on_terminate⟩

/-- BaseLaunchConfig.add_volume_device (base.py lines 286-291): validate,
then append the returned mapping.  The raise propagates before the append,
so the error carries the configuration exactly as it was at call time. -/
def add_volume_device (cfg : LaunchConfig) (source : Option VolumeSource)
    (is_root : Bool) (size : Option Int) (delete_on_terminate : Option Bool) :
    Except (InvalidConfigurationException × LaunchConfig) LaunchConfig :=
  match validate_volume_device cfg source is_root size delete_on_terminate with
  | .error e => .error (e, cfg)
  | .ok bd => .ok { cfg with block_devices := cfg.block_devices ++ [bd] }

/-- BaseLaunchConfig.add_ephemeral_device (base.py lines 282-284): append
a default-constructed BlockDeviceMapping, no validation. -/
def add_ephemeral_device (cfg : LaunchConfig) : LaunchConfig :=
  { cfg with block_devices := cfg.block_devices ++ [⟨false, none, false, none, none⟩] }

/-- BaseLaunchConfig.add_network_interface (base.py lines 323-324):
append the opaque id, no validation. -/
def add_network_interface (cfg : LaunchConfig) (net_id : Nat) : LaunchConfig :=
  { cfg with net_ids := cfg.net_ids ++ [net_id] }

/-- One call to one of the three add-methods of a BaseLaunchConfig. -/
inductive ConfigOp where
  | ephemeral
  | volumeDev (source : Option VolumeSource) (is_root : Bool)
      (size : Option Int) (delete_on_terminate : Option Bool)
  | network (net_id : Nat)
  deriving DecidableEq

/-- Apply one add-call to a configuration. -/
def applyOp (cfg : LaunchConfig) :
    ConfigOp → Except (InvalidConfigurationException × LaunchConfig) LaunchConfig
  | .ephemeral => .ok (add_ephemeral_device cfg)
  | .volumeDev s r z d => add_volume_device cfg s r z d
  | .network n => .ok (add_network_interface cfg n)

/-- Apply a sequence of add-calls; some cfg only when every call
succeeded. -/
def applyOps (cfg : LaunchConfig) : List ConfigOp → Option LaunchConfig
  | [] => some cfg
  | op :: rest =>
    match applyOp cfg op with
    | .ok cfg2 => applyOps cfg2 rest
    | .error _ => none

/-- Number of block-device specs marked as root. -/
def rootCount (cfg : LaunchConfig) : Nat :=
  cfg.block_devices.countP (fun bd => bd.is_root)

/-- A successful validation pins down the returned mapping and, when
is_root was requested, certifies that no existing spec is root. -/
theorem validate_ok_inv (cfg : LaunchConfig) (source : Option VolumeSource)
    (is_root : Bool) (size : Option Int) (d : Option Bool)
    (bd : BlockDeviceMapping)
    (h : validate_volume_device cfg source is_root size d = .ok bd) :
    bd = ⟨true, source, is_root, size, d⟩ ∧
    (is_root = true → cfg.block_devices.any (fun b => b.is_root) = false) := by
  rw [validate_volume_device] at h
  split at h
  · cases h
  · split at h
    · cases h
    · split at h
      · cases h
      · split at h
        · cases h
        · rename_i h4
          cases h
          refine ⟨rfl, fun hr => ?_⟩
          by_contra hany
          exact h4 ⟨hr, by simpa using hany⟩

/-- A successful add_volume_device call is exactly a successful validation
followed by appending the validated mapping. -/
theorem add_volume_ok_shape (cfg : LaunchConfig) (source : Option VolumeSource)
    (is_root : Bool) (size : Option Int) (d : Option Bool) (cfg2 : LaunchConfig)
    (h : add_volume_device cfg source is_root size d = .ok cfg2) :
    ∃ bd, validate_volume_device cfg source is_root size d = .ok bd ∧
      cfg2 = { cfg with block_devices := cfg.block_devices ++ [bd] } := by
  rw [add_volume_device] at h
  split at h
  · cases h
  · rename_i bd hval
    cases h
    exact ⟨bd, hval, rfl⟩

/-- Any sequence of successful add-calls keeps the number of root-marked
specs at most one. -/
theorem applyOps_rootCount (ops : List ConfigOp) :
    ∀ cfg cfg2, applyOps cfg ops = some cfg2 →
      rootCount cfg ≤ 1 → rootCount cfg2 ≤ 1 := by
  induction ops with
  | nil =>
    intro cfg cfg2 h hle
    cases h
    exact hle
  | cons op rest ih =>
    intro cfg cfg2 h hle
    rw [applyOps] at h
    cases op with
    | ephemeral =>
      simp only [applyOp] at h
      refine ih _ _ h ?_
      simpa [add_ephemeral_device, rootCount, List.countP_append,
        List.countP_cons] using hle
    | network n =>
      simp only [applyOp] at h
      refine ih _ _ h ?_
      simpa [add_network_interface, rootCount] using hle
    | volumeDev s r z d =>
      simp only [applyOp] at h
      cases hv : add_volume_device cfg s r z d with
      | error e =>
        rw [hv] at h
        cases h
      | ok cfgNext =>
        rw [hv] at h
        refine ih _ _ h ?_
        obtain ⟨bd, hval, rfl⟩ := add_volume_ok_shape cfg s r z d cfgNext hv
        obtain ⟨hbd, hroot⟩ := validate_ok_inv cfg s r z d bd hval
        subst hbd
        by_cases hr : r = true
        · subst hr
          have hfalse := hroot rfl
          rw [List.any_eq_false] at hfalse
          have h0 : cfg.block_devices.countP (fun bd => bd.is_root) = 0 := by
            rw [List.countP_eq_zero]
            intro a ha
            simpa using hfalse a ha
          simp [rootCount, List.countP_append, List.countP_cons, h0]
        · have hr0 : r = false := by
            cases r
            · rfl
            · exact absurd rfl hr
          subst hr0
          simpa [rootCount, List.countP_append, List.countP_cons] using hle

/-- Claim C8: on any configuration reachable from the empty one by
successful add_ephemeral_device / add_volume_device /
add_network_interface calls, at most one block-device spec is root; an
add_volume_device call requesting is_root while some existing spec is
already root fails with InvalidConfigurationException leaving the
configuration untouched; and a successful add_volume_device appends
exactly one spec at the end, preserving insertion order and the
network-id list. -/
theorem claim_C8_root_invariant (ops : List ConfigOp) (cfg : LaunchConfig)
    (h : applyOps ⟨[], []⟩ ops = some cfg) :
    rootCount cfg ≤ 1 ∧
    (∀ source size d, cfg.block_devices.any (fun bd => bd.is_root) = true →
      ∃ e, add_volume_device cfg source true size d = .error (e, cfg)) ∧
    (∀ source is_root size d cfg2,
      add_volume_device cfg source is_root size d = .ok cfg2 →
      ∃ bd, cfg2.block_devices = cfg.block_devices ++ [bd] ∧
        cfg2.net_ids = cfg.net_ids) := by
  refine ⟨applyOps_rootCount ops ⟨[], []⟩ cfg h (by simp [rootCount]), ?_, ?_⟩
  · intro source size d hany
    cases hv : validate_volume_device cfg source true size d with
    | error e =>
      exact ⟨e, by rw [add_volume_device, hv]⟩
    | ok bd =>
      obtain ⟨-, hroot⟩ := validate_ok_inv cfg source true size d bd hv
      rw [hroot rfl] at hany
      cases hany
  · intro source is_root size d cfg2 hok
    obtain ⟨bd, -, rfl⟩ := add_volume_ok_shape cfg source is_root size d cfg2 hok
    exact ⟨bd, rfl, rfl⟩

/-- The call sequence of the C8 witness: one ephemeral device, one
root volume device of size 10 from a snapshot, one network interface. -/
def c8Ops : List ConfigOp :=
  [ConfigOp.ephemeral,
   ConfigOp.volumeDev (some (VolumeSource.snapshot 1)) true (some 10) none,
   ConfigOp.network 5]

/-- The configuration those three calls build. -/
def c8Cfg : LaunchConfig :=
  ⟨[⟨false, none, false, none, none⟩,
    ⟨true, some (VolumeSource.snapshot 1), true, some 10, none⟩], [5]⟩

/-- Witness for C8 at a concrete input. -/
theorem claim_C8_witness :
    applyOps ⟨[], []⟩ c8Ops = some c8Cfg ∧
    (rootCount c8Cfg ≤ 1 ∧
     (∀ source size d, c8Cfg.block_devices.any (fun bd => bd.is_root) = true →
       ∃ e, add_volume_device c8Cfg source true size d = .error (e, c8Cfg)) ∧
     (∀ source is_root size d cfg2,
       add_volume_device c8Cfg source is_root size d = .ok cfg2 →
       ∃ bd, cfg2.block_devices = c8Cfg.block_devices ++ [bd] ∧
         cfg2.net_ids = c8Cfg.net_ids)) :=
  ⟨by decide, claim_C8_root_invariant c8Ops c8Cfg (by decide)⟩

/-- Claim C7, amended: when the size argument is present and truthy (a
non-zero integer), a non-positive value makes add_volume_device fail with
InvalidConfigurationException, whatever the source; a size of 0 is falsy
in Python, so the code treats it as absent and check (c) does not run. -/
theorem claim_C7_nonpositive_size (cfg : LaunchConfig)
    (source : Option VolumeSource) (is_root : Bool) (n : Int) (d : Option Bool)
    (hn0 : n ≠ 0) (hnp : ¬ (0 : Int) < n) :
    ∃ msg, add_volume_device cfg source is_root (some n) d =
      .error (.invalidConfiguration msg, cfg) := by
  have hsz : sizeTruthy (some n) = true := by
    simp [sizeTruthy]
    exact hn0
  have hsp : sizePositive (some n) = false := by
    simp [sizePositive]
    omega
  by_cases hb : sourceTruthy source = true ∧ sourceAllowed source = false
  · refine ⟨"Source must be a Snapshot, Volume, MachineImage or None", ?_⟩
    rw [add_volume_device, validate_volume_device, if_neg (by simp [hsz]),
      if_pos hb]
  · refine ⟨"The size must be None or a number greater than 0", ?_⟩
    rw [add_volume_device, validate_volume_device, if_neg (by simp [hsz]),
      if_neg hb, if_pos ⟨hsz, hsp⟩]

/-- Witness for C7 (amended) at a concrete input. -/
theorem claim_C7_witness :
    ((-1 : Int) ≠ 0 ∧ ¬ (0 : Int) < -1) ∧
    ∃ msg, add_volume_device ⟨[], []⟩ none false (some (-1)) none =
      .error (.invalidConfiguration msg, ⟨[], []⟩) :=
  ⟨by decide, claim_C7_nonpositive_size ⟨[], []⟩ none false (-1) none
    (by decide) (by decide)⟩

/-- Counterexample to C7 as stated: size = 0 is provided and non-nil and
is not a positive integer, and a valid source is also provided, yet
add_volume_device succeeds and appends the spec: the Python guard
if size: treats 0 as absent, so check (c) never runs. -/
theorem claim_C7_counterexample :
    add_volume_device ⟨[], []⟩ (some (VolumeSource.snapshot 1)) false
        (some 0) none =
      .ok ⟨[⟨true, some (VolumeSource.snapshot 1), false, some 0, none⟩], []⟩ := by
  rfl

/-- Claim C9: whenever add_volume_device fails with
InvalidConfigurationException, the configuration the exception leaves
behind has exactly the block-device list and network-id list it had at
call time: the failing call appends nothing and mutates nothing. -/
theorem claim_C9_failure_frame (cfg : LaunchConfig)
    (source : Option VolumeSource) (is_root : Bool) (size : Option Int)
    (d : Option Bool) (e : InvalidConfigurationException) (cfg2 : LaunchConfig)
    (h : add_volume_device cfg source is_root size d = .error (e, cfg2)) :
    cfg2.block_devices = cfg.block_devices ∧ cfg2.net_ids = cfg.net_ids := by
  rw [add_volume_device] at h
  split at h
  · simp only [Except.error.injEq, Prod.mk.injEq] at h
    obtain ⟨-, h2⟩ := h
    rw [← h2]
    exact ⟨rfl, rfl⟩
  · cases h

/-- Witness for C9 at a concrete input: the blank-volume failure leaves
the empty configuration empty. -/
theorem claim_C9_witness :
    (add_volume_device ⟨[], []⟩ none false none none =
      .error (.invalidConfiguration
        "A size must be specified for a blank new volume", ⟨[], []⟩)) ∧
    ((⟨[], []⟩ : LaunchConfig).block_devices =
        (⟨[], []⟩ : LaunchConfig).block_devices ∧
      (⟨[], []⟩ : LaunchConfig).net_ids = (⟨[], []⟩ : LaunchConfig).net_ids) :=
  ⟨by rfl, claim_C9_failure_frame ⟨[], []⟩ none false none none
    (.invalidConfiguration "A size must be specified for a blank new volume")
    ⟨[], []⟩ (by rfl)⟩
